import Mathlib

namespace Malabro

/-- Product row, from `app/models/product.py` (`products` table). The
relational `category_id` / `unit_of_measure_id` columns play no role in the
order core and are omitted. -/
structure Product where
  id : Nat
  name : String
  descr : String
  price : ℚ
  image_url : Option String
  stock_quantity : Int
  is_active : Bool
  deriving Repr, DecidableEq

/-- Cart line sent by the client, from `OrderItemCreate` in
`app/schemas/order.py`.  Note that `quantity` and `subtotal` are plain fields:
the schema attaches no validator to them. -/
structure OrderItemCreate where
  product_id : Nat
  product_name : String
  product_price : ℚ
  quantity : Int
  subtotal : ℚ
  deriving Repr, DecidableEq

/-- Payload of a create-order request, from `OrderCreate` in
`app/schemas/order.py`. -/
structure OrderCreate where
  customer_name : String
  customer_email : String
  customer_phone : Option String
  shipping_address : String
  shipping_city : String
  shipping_country : String
  billing_address : Option String
  billing_city : Option String
  billing_country : Option String
  items : List OrderItemCreate
  deriving Repr, DecidableEq

/-- Order row, from `app/models/order.py` (`orders` table).  Timestamps are
abstract `Nat` instants. -/
structure Order where
  id : Nat
  user_id : Option Nat
  total_amount : ℚ
  status : String
  order_reference : String
  customer_name : String
  customer_email : String
  customer_phone : Option String
  shipping_address : String
  shipping_city : String
  shipping_country : String
  billing_address : String
  billing_city : String
  billing_country : String
  payment_method : String
  payment_confirmed_at : Option Nat
  payment_notes : Option String
  created_at : Nat
  updated_at : Nat
  deriving Repr, DecidableEq

/-- OrderItem row, from `app/models/order.py` (`order_items` table).  The
model file documents `subtotal` as `price * quantity`. -/
structure OrderItemRow where
  order_id : Nat
  product_id : Nat
  product_name : String
  product_price : ℚ
  quantity : Int
  subtotal : ℚ
  deriving Repr, DecidableEq

/-- InventoryLedger row, from `app/models/inventory_ledger.py`
(`inventory_ledger` table). -/
structure LedgerRow where
  product_id : Nat
  change_type : String
  quantity_change : Int
  new_quantity : Int
  user_id : Option Nat
  order_id : Option Nat
  notes : String
  deriving Repr, DecidableEq

/-- The relational state the order core reads and writes: the four tables of
the schema plus the id sequence for orders.  Row lists are in insertion
(`created_at`) order. -/
structure DB where
  products : List Product
  orders : List Order
  order_items : List OrderItemRow
  ledger : List LedgerRow
  next_order_id : Nat
  deriving Repr, DecidableEq

/-- `db.query(Product).filter(Product.id == pid).first()`. -/
def findProduct (db : DB) (pid : Nat) : Option Product :=
  db.products.find? (fun p => p.id == pid)

/-- Python builtin `abs` on a rational value (kernel-reducible, unlike the
lattice-derived `|·|`). -/
def pyAbs (x : ℚ) : ℚ := if x < 0 then -x else x

/-- The price tolerance of the price-tamper guard:
`abs(product.price - item.product_price) > 0.01`. -/
def priceTol : ℚ := 1 / 100

/-- The data carried by the French error strings `validate_items` returns:
which check failed and the values interpolated into the message. -/
inductive ValidationError where
  | productNotFound (product_id : Nat)
  | priceMismatch (product_name : String) (expected : ℚ) (received : ℚ)
  | insufficientStock (product_name : String) (requested : Int) (available : Int)
  deriving Repr, DecidableEq

/-- `CRUDOrder.validate_items` from `app/crud/order.py`: iterate the submitted
lines in order; per line check product existence, then
`abs(product.price - item.product_price) > 0.01`, then
`product.stock_quantity < item.quantity`; return the first failure, `none` if
every line passes. -/
def validate_items (db : DB) : List OrderItemCreate → Option ValidationError
  | [] => none
  | item :: rest =>
    match findProduct db item.product_id with
    | none => some (.productNotFound item.product_id)
    | some p =>
      if priceTol < pyAbs (p.price - item.product_price) then
        some (.priceMismatch p.name p.price item.product_price)
      else if p.stock_quantity < item.quantity then
        some (.insufficientStock p.name item.quantity p.stock_quantity)
      else validate_items db rest

/-- The outcome of `validate_items` on one line in isolation (same three
checks, in the same order, with the same payloads). -/
def lineError (db : DB) (item : OrderItemCreate) : Option ValidationError :=
  match findProduct db item.product_id with
  | none => some (.productNotFound item.product_id)
  | some p =>
    if priceTol < pyAbs (p.price - item.product_price) then
      some (.priceMismatch p.name p.price item.product_price)
    else if p.stock_quantity < item.quantity then
      some (.insufficientStock p.name item.quantity p.stock_quantity)
    else none

/-- Row written to `order_items` for a cart line:
`OrderItem(**item.dict(), order_id=db_obj.id)` in `create_with_owner`. -/
def itemRowFor (oid : Nat) (item : OrderItemCreate) : OrderItemRow :=
  ⟨oid, item.product_id, item.product_name, item.product_price,
    item.quantity, item.subtotal⟩

/-- Ledger row appended for a cart line whose product `p` was found:
`InventoryLedgerCreate(...)` in `create_with_owner`, where `new_quantity` is
the product's stock after the decrement. -/
def ledgerRowFor (p : Product) (item : OrderItemCreate) (oid : Nat)
    (uid : Option Nat) (ref : String) : LedgerRow :=
  ⟨p.id, "Sale", -item.quantity, p.stock_quantity - item.quantity,
    uid, some oid, "Order " ++ ref⟩

/-- Assign a new stock value to the product row with id `pid`
(`product.stock_quantity -= item.quantity; db.add(product)`). -/
def setStock (db : DB) (pid : Nat) (newStock : Int) : DB :=
  { db with
    products := db.products.map (fun q =>
      if q.id == pid then { q with stock_quantity := newStock } else q) }

/-- Python `or` on an optional string (`None` and `""` are falsy), used for
the billing-address defaults in `create_with_owner`. -/
def pyOrStr (a : Option String) (b : String) : String :=
  match a with
  | some s => if s = "" then b else s
  | none => b

/-- The body of the per-item loop of `create_with_owner`: look the product up;
if found, decrement its stock and append the Sale ledger row; in either case
insert the OrderItem row. -/
def procItem (oid : Nat) (uid : Option Nat) (ref : String) (db : DB)
    (item : OrderItemCreate) : DB :=
  let dbAfter :=
    match findProduct db item.product_id with
    | some p =>
      let db1 := setStock db p.id (p.stock_quantity - item.quantity)
      { db1 with ledger := db1.ledger ++ [ledgerRowFor p item oid uid ref] }
    | none => db
  { dbAfter with
    order_items := dbAfter.order_items ++ [itemRowFor oid item] }

/-- The Order row built at the top of `create_with_owner`:
`total_amount = sum(item.subtotal for item in obj_in.items)` (the
client-supplied `subtotal` fields), `status="pending"`,
`payment_method="wave_qr"`, billing fields defaulted with Python `or`. -/
def mkOrderRow (db : DB) (objIn : OrderCreate) (uid : Option Nat)
    (ref : String) (now : Nat) : Order where
  id := db.next_order_id
  user_id := uid
  total_amount := (objIn.items.map OrderItemCreate.subtotal).sum
  status := "pending"
  order_reference := ref
  customer_name := objIn.customer_name
  customer_email := objIn.customer_email
  customer_phone := objIn.customer_phone
  shipping_address := objIn.shipping_address
  shipping_city := objIn.shipping_city
  shipping_country := objIn.shipping_country
  billing_address := pyOrStr objIn.billing_address objIn.shipping_address
  billing_city := pyOrStr objIn.billing_city objIn.shipping_city
  billing_country := pyOrStr objIn.billing_country objIn.shipping_country
  payment_method := "wave_qr"
  payment_confirmed_at := none
  payment_notes := none
  created_at := now
  updated_at := now

/-- `CRUDOrder.create_with_owner` on the success path (the committed result):
insert the Order row, then run the per-item loop, then commit.  The order
reference produced by `_generate_order_reference` enters as the parameter
`ref` (the generator itself is modelled separately); `now` is the commit
instant.  The call raises nothing: every cart, including one whose product
ids are absent from the catalog, is committed. -/
def create_with_owner (db : DB) (objIn : OrderCreate) (uid : Option Nat)
    (ref : String) (now : Nat) : DB × Order :=
  let ord := mkOrderRow db objIn uid ref now
  let db1 := { db with
    orders := db.orders ++ [ord],
    next_order_id := db.next_order_id + 1 }
  (objIn.items.foldl (procItem ord.id uid ref) db1, ord)

/-- Current stock of product `pid`, when it exists. -/
def stockOf (db : DB) (pid : Nat) : Option Int :=
  (findProduct db pid).map Product.stock_quantity

/-- `CRUDOrder.update_status` from `app/crud/order.py`: assign the new status;
assign `payment_notes` only when the argument is truthy (`if payment_notes:`);
stamp `payment_confirmed_at` with the current time exactly when the new status
is `"paid"`; the commit refreshes `updated_at` (SQL `onupdate=func.now()`). -/
def update_status (ord : Order) (status : String) (payment_notes : Option String)
    (now : Nat) : Order :=
  let o1 := { ord with status := status }
  let o2 :=
    match payment_notes with
    | some n => if n = "" then o1 else { o1 with payment_notes := some n }
    | none => o1
  let o3 :=
    if status = "paid" then { o2 with payment_confirmed_at := some now } else o2
  { o3 with updated_at := now }

/-- The updatable fields of the admin product-update payload
(`updateable_fields` in `update_product`, `app/api/v1/endpoints/admin.py`);
`none` means the key is absent from the request body.  The source also lets
`"category"` through; like the relational columns it is omitted here.  A
present-but-null `stock_quantity` is coerced to `0` by the source
(`int(x) if x is not None else 0`); here the caller supplies the coerced
integer. -/
structure ProductUpdateData where
  name : Option String
  descr : Option String
  price : Option ℚ
  image_url : Option String
  stock_quantity : Option Int
  is_active : Option Bool
  deriving Repr, DecidableEq

/-- `update_product` from `app/api/v1/endpoints/admin.py`: 404 when the
product does not exist (`none`); otherwise overwrite each present field and
commit.  Note that no `InventoryLedger` row is written, even when
`stock_quantity` changes. -/
def update_product (db : DB) (pid : Nat) (data : ProductUpdateData) :
    Option DB :=
  match findProduct db pid with
  | none => none
  | some _ =>
    some { db with
      products := db.products.map (fun p =>
        if p.id == pid then
          { p with
            name := data.name.getD p.name
            descr := data.descr.getD p.descr
            price := data.price.getD p.price
            image_url := (data.image_url.map some).getD p.image_url
            stock_quantity := data.stock_quantity.getD p.stock_quantity
            is_active := data.is_active.getD p.is_active }
        else p) }

/-- `string.ascii_uppercase + string.digits`. -/
def refChars : List Char := "ABCDEFGHIJKLMNOPQRSTUVWXYZ0123456789".toList

/-- `''.join(secrets.choice(chars) for _ in range(6))` for one attempt. -/
def randomPart (pickA : Fin 6 → Fin 36) : String :=
  String.mk ((List.finRange 6).map (fun i =>
    refChars.get ((pickA i).cast (by decide))))

/-- `db.query(Order).filter(Order.order_reference == ref).first()` is
non-empty. -/
def usedRef (db : DB) (ref : String) : Bool :=
  db.orders.any (fun o => o.order_reference == ref)

/-- `CRUDOrder._generate_order_reference`, fuel-indexed: attempt `a` builds
`"MALABRO-" + random_part` and returns it unless an existing order already
uses it, in which case the loop runs again. -/
def generate_order_reference (db : DB) (pick : Nat → Fin 6 → Fin 36) :
    Nat → Nat → Option String
  | _, 0 => none
  | a, fuel + 1 =>
    let ref := "MALABRO-" ++ randomPart (pick a)
    if usedRef db ref then generate_order_reference db pick (a + 1) fuel
    else some ref

structure Sess where
  base : DB
  work : DB
  deriving Repr, DecidableEq

/-- Run one SQL statement on the session's view. -/
def onWork (f : DB → DB) (s : Sess) : Sess := { s with work := f s.work }

/-- `db.commit()`: publish the session's view durably. -/
def commitSess (s : Sess) : Sess := { s with base := s.work }

/-- The per-item loop of `create_with_owner` on a session, with statement
counter `c` and injected failure point `failAt`. -/
def runItems (failAt : Option Nat) (oid : Nat) (uid : Option Nat) (ref : String) :
    Nat → Sess → List OrderItemCreate → Sess × Option Nat
  | c, s, [] => (s, some c)
  | c, s, item :: rest =>
    match findProduct s.work item.product_id with
    | some p =>
      if failAt = some c then (s, none) else
      let s1 := onWork (fun db => setStock db p.id (p.stock_quantity - item.quantity)) s
      if failAt = some (c + 1) then (s1, none) else
      let s2 := onWork (fun db =>
        { db with ledger := db.ledger ++ [ledgerRowFor p item oid uid ref] }) s1
      if failAt = some (c + 2) then (s2, none) else
      let s3 := onWork (fun db =>
        { db with order_items := db.order_items ++ [itemRowFor oid item] }) s2
      runItems failAt oid uid ref (c + 3) s3 rest
    | none =>
      if failAt = some c then (s, none) else
      runItems failAt oid uid ref (c + 1)
        (onWork (fun db =>
          { db with order_items := db.order_items ++ [itemRowFor oid item] }) s) rest

/-- The tail of the unit of work: after the per-item loop, either the loop
already aborted, or the final `db.commit()` itself fails (statement number
`c`), or the commit publishes the session. -/
def create_tx_after (failAt : Option Nat) (oid : Nat) (r : Sess × Option Nat) :
    Sess × Option Nat :=
  match r with
  | (s, none) => (s, none)
  | (s, some c) =>
    if failAt = some c then (s, none)
    else (commitSess s, some oid)

/-- `create_with_owner` as a unit of work with failure injection. -/
def create_tx (failAt : Option Nat) (db : DB) (objIn : OrderCreate)
    (uid : Option Nat) (ref : String) (now : Nat) : Sess × Option Nat :=
  let s0 : Sess := ⟨db, db⟩
  if failAt = some 0 then (s0, none) else
  let ord := mkOrderRow db objIn uid ref now
  let s1 := onWork (fun d =>
    { d with orders := d.orders ++ [ord], next_order_id := d.next_order_id + 1 }) s0
  create_tx_after failAt ord.id (runItems failAt ord.id uid ref 1 s1 objIn.items)

/-- Durable store for the C3 witness: one product with stock 5. -/
def c3w_db : DB :=
  ⟨[⟨1, "Mangues", "fraiches", 4, none, 5, true⟩], [], [], [], 1⟩

/-- Cart for the C3 witness: one line for product 1. -/
def c3w_cart : OrderCreate :=
  ⟨"Ada", "ada@example.com", none, "Rue 12", "Dakar", "Senegal",
    none, none, none, [⟨1, "Mangues", 4, 2, 8⟩]⟩

/-- Concrete catalog for the C4 witness: one product, priced 10, stock 5. -/
def c4w_db : DB :=
  ⟨[⟨1, "Tomates", "bio", 10, none, 5, true⟩], [], [], [], 1⟩

/-- A cart line that passes all three checks on `c4w_db`. -/
def c4w_line : OrderItemCreate := ⟨1, "Tomates", 10, 2, 20⟩

/-- Catalog with a single product: id 1, price 10, stock 5. -/
def c1_db : DB := ⟨[⟨1, "Tomates", "bio", 10, none, 5, true⟩], [], [], [], 1⟩

/-- One cart line for product 1, quantity 3 at the correct price. -/
def c1_line : OrderItemCreate := ⟨1, "Tomates", 10, 3, 30⟩

/-- A cart holding the same line twice: 6 units in total against a stock
of 5. -/
def c1_cart : OrderCreate :=
  ⟨"Awa", "awa@example.com", none, "Rue 1", "Dakar", "Senegal",
    none, none, none, [c1_line, c1_line]⟩

/-- Catalog with a single product: id 1, price 10, stock 5. -/
def c2_db : DB := ⟨[⟨1, "Riz", "sac", 10, none, 5, true⟩], [], [], [], 1⟩

/-- A cart line with the correct asserted price (10) and quantity 2, but a
client-chosen `subtotal` of 0 instead of 20. -/
def c2_line : OrderItemCreate := ⟨1, "Riz", 10, 2, 0⟩

def c2_cart : OrderCreate :=
  ⟨"Bintou", "b@example.com", none, "Rue 2", "Dakar", "Senegal",
    none, none, none, [c2_line]⟩

/-- Ledger rows of one product, in `created_at` (insertion) order. -/
def ledgerFor (db : DB) (pid : Nat) : List LedgerRow :=
  db.ledger.filter (fun r => r.product_id == pid)

/-- Sum of all `quantity_change` for one product. -/
def ledgerSum (db : DB) (pid : Nat) : Int :=
  ((ledgerFor db pid).map LedgerRow.quantity_change).sum

/-- A product stocked at 5 whose ledger is consistent: a single initial entry
of +5. -/
def c5_db : DB :=
  ⟨[⟨1, "Bananes", "kg", 3, none, 5, true⟩], [], [],
    [⟨1, "Initial Stock", 5, 5, none, none, "init"⟩], 1⟩

/-- An admin payload updating only `stock_quantity`, to 12. -/
def c5_upd : ProductUpdateData := ⟨none, none, none, none, some 12, none⟩

/-- Catalog with a single product: id 1, price 6, stock 5. -/
def c8_db : DB := ⟨[⟨1, "Oignons", "kg", 6, none, 5, true⟩], [], [], [], 1⟩

/-- A cart line with quantity −2 (correct price). -/
def c8_line : OrderItemCreate := ⟨1, "Oignons", 6, -2, -12⟩

def c8_cart : OrderCreate :=
  ⟨"Demba", "d@example.com", none, "Rue 4", "Dakar", "Senegal",
    none, none, none, [c8_line]⟩

/-- Empty catalog and a cart line for the absent product 99, for the C10
witness. -/
def c10w_db : DB := ⟨[], [], [], [], 1⟩

def c10w_line : OrderItemCreate := ⟨99, "Disparu", 5, 1, 5⟩

def c10w_cart : OrderCreate :=
  ⟨"Fatou", "f@example.com", none, "Rue 5", "Dakar", "Senegal",
    none, none, none, [c10w_line]⟩

/-- The Sale ledger rows appended by the per-item loop: one per cart line
whose product is found, threading the evolving database state exactly as
`procItem` does (so each row's `new_quantity` is the product's stock after
that line's decrement). -/
def saleRows (oid : Nat) (uid : Option Nat) (ref : String) :
    DB → List OrderItemCreate → List LedgerRow
  | _, [] => []
  | db, item :: rest =>
    match findProduct db item.product_id with
    | some p =>
      ledgerRowFor p item oid uid ref ::
        saleRows oid uid ref (procItem oid uid ref db item) rest
    | none => saleRows oid uid ref (procItem oid uid ref db item) rest

/-- Catalog with only product 1 for the C6 counterexample. -/
def c6x_db : DB := ⟨[⟨1, "Pommes", "kg", 2, none, 9, true⟩], [], [], [], 1⟩

/-- A cart whose single line names the absent product 99. -/
def c6x_cart : OrderCreate :=
  ⟨"Cheikh", "c@example.com", none, "Rue 3", "Dakar", "Senegal",
    none, none, none, [⟨99, "Disparu", 2, 1, 2⟩]⟩

/-- Catalog and cart for the C6 witness: one line for the present product 1. -/
def c6w_db : DB := ⟨[⟨1, "Ble", "kg", 2, none, 9, true⟩], [], [], [], 1⟩

def c6w_cart : OrderCreate :=
  ⟨"Mor", "m@example.com", none, "Rue 6", "Dakar", "Senegal",
    none, none, none, [⟨1, "Ble", 2, 4, 8⟩]⟩

/-- A picker that always draws character 0 (`'A'`) at every position of every
attempt. -/
def c7_pick : Nat → Fin 6 → Fin 36 := fun _ _ => ⟨0, by omega⟩

/-- A store already holding an order whose reference is the one every attempt
of `c7_pick` generates. -/
def c7x_db : DB :=
  ⟨[], [⟨1, none, 0, "pending", "MALABRO-AAAAAA", "X", "x@example.com", none,
    "A", "B", "C", "A", "B", "C", "wave_qr", none, none, 0, 0⟩], [], [], 2⟩

/-- Empty store for the C7 witness: the first candidate is fresh. -/
def c7w_db : DB := ⟨[], [], [], [], 1⟩

/-! ## Theorems -/

theorem pyAbs_eq_abs (x : ℚ) : pyAbs x = |x| := by
  by_cases h : x < 0
  · simp [pyAbs, h, abs_of_neg h]
  · simp [pyAbs, h, abs_of_nonneg (le_of_not_lt h)]

theorem refChars_length : refChars.length = 36 := by decide

theorem validate_items_cons (db : DB) (item : OrderItemCreate)
    (rest : List OrderItemCreate) :
    validate_items db (item :: rest) =
      match lineError db item with
      | some e => some e
      | none => validate_items db rest := by
  simp only [validate_items, lineError]
  cases h : findProduct db item.product_id with
  | none => rfl
  | some p =>
    by_cases h1 : priceTol < pyAbs (p.price - item.product_price)
    · simp [h1]
    · by_cases h2 : p.stock_quantity < item.quantity <;> simp [h1, h2]

theorem validate_items_eq_findSome (db : DB) :
    ∀ items : List OrderItemCreate,
      validate_items db items = items.findSome? (lineError db) := by
  intro items
  induction items with
  | nil => rfl
  | cons item rest ih =>
    rw [validate_items_cons, List.findSome?_cons]
    cases lineError db item <;> simp [ih]

theorem onWork_base (f : DB → DB) (s : Sess) : (onWork f s).base = s.base := rfl

theorem runItems_base (failAt : Option Nat) (oid : Nat) (uid : Option Nat)
    (ref : String) :
    ∀ (items : List OrderItemCreate) (c : Nat) (s : Sess),
      ((runItems failAt oid uid ref c s items).1).base = s.base := by
  intro items
  induction items with
  | nil => intro c s; rfl
  | cons item rest ih =>
    intro c s
    simp only [runItems]
    cases h : findProduct s.work item.product_id with
    | some p =>
      by_cases h0 : failAt = some c
      · simp [h0]
      · by_cases h1 : failAt = some (c + 1)
        · simp [h0, h1, onWork]
        · by_cases h2 : failAt = some (c + 2)
          · simp [h0, h1, h2, onWork]
          · simp only [h0, h1, h2, if_false]
            exact ih _ _
    | none =>
      by_cases h0 : failAt = some c
      · simp [h0]
      · simp only [h0, if_false]
        exact ih _ _

theorem create_tx_after_base (failAt : Option Nat) (oid : Nat)
    (r : Sess × Option Nat) (h : (create_tx_after failAt oid r).2 = none) :
    ((create_tx_after failAt oid r).1).base = r.1.base := by
  rcases r with ⟨s, oc⟩
  cases oc with
  | none => rfl
  | some c =>
    by_cases hc : failAt = some c
    · simp [create_tx_after, hc]
    · simp [create_tx_after, hc] at h

/-- C3: the unit of work of `create_with_owner` is atomic.  Whatever statement
the attempt fails at — the Order insert, any stock decrement, any ledger
append, any OrderItem insert, or the final commit — the aborted transaction
leaves the durable store exactly as it was: no order row, no item row, no
ledger row and no stock change from that attempt persists.  (`CRUDBase` is not
part of the sources; following the spec, the ledger append participates in the
same unit of work, modelled by `runItems` writing the session view that only
`commitSess` publishes.) -/
theorem c3_failed_create_tx_rolls_back_every_write (failAt : Option Nat)
    (db : DB) (objIn : OrderCreate) (uid : Option Nat) (ref : String) (now : Nat)
    (h : (create_tx failAt db objIn uid ref now).2 = none) :
    ((create_tx failAt db objIn uid ref now).1).base = db := by
  unfold create_tx at h ⊢
  by_cases h0 : failAt = some 0
  · simp [h0]
  · simp only [h0, if_false] at h ⊢
    rw [create_tx_after_base _ _ _ h, runItems_base, onWork_base]

theorem c3_witness :
    (create_tx (some 2) c3w_db c3w_cart (some 4) "MALABRO-TEST01" 7).2 = none ∧
    ((create_tx (some 2) c3w_db c3w_cart (some 4) "MALABRO-TEST01" 7).1).base = c3w_db :=
  ⟨rfl, c3_failed_create_tx_rolls_back_every_write (some 2) c3w_db c3w_cart
    (some 4) "MALABRO-TEST01" 7 rfl⟩

/-- C4: `validate_items` iterates the cart lines in submitted order and
returns the first line's failure (where `lineError` performs, per line, the
existence check, the price-tolerance check against `0.01` and the stock check,
in that order, with the payloads the source interpolates into its messages);
it returns `none` exactly when every line passes all three checks. -/
theorem c4_validate_items_first_failure (db : DB) (items : List OrderItemCreate) :
    validate_items db items = items.findSome? (lineError db) ∧
    (validate_items db items = none ↔ ∀ item ∈ items, lineError db item = none) := by
  refine ⟨validate_items_eq_findSome db items, ?_⟩
  rw [validate_items_eq_findSome db items]
  exact List.findSome?_eq_none_iff

theorem c4_witness : validate_items c4w_db [c4w_line] = none :=
  ((c4_validate_items_first_failure c4w_db [c4w_line]).2).mpr (by
    intro item h
    simp only [List.mem_singleton] at h
    subst h
    norm_num [lineError, findProduct, pyAbs, priceTol, c4w_db, c4w_line])

/-- C9: `update_status` stamps `payment_confirmed_at` with the current time
exactly when the new status is `"paid"` and leaves it unchanged otherwise (so
a stamp is never cleared by a later transition), and changes no field of the
order besides `status`, `payment_notes`, `payment_confirmed_at` and
`updated_at`. -/
theorem c9_update_status_paid_stamp_and_frame (ord : Order) (st : String)
    (notes : Option String) (now : Nat) :
    (update_status ord st notes now).status = st ∧
    (update_status ord st notes now).payment_confirmed_at =
      (if st = "paid" then some now else ord.payment_confirmed_at) ∧
    (update_status ord st notes now).id = ord.id ∧
    (update_status ord st notes now).user_id = ord.user_id ∧
    (update_status ord st notes now).total_amount = ord.total_amount ∧
    (update_status ord st notes now).order_reference = ord.order_reference ∧
    (update_status ord st notes now).customer_name = ord.customer_name ∧
    (update_status ord st notes now).customer_email = ord.customer_email ∧
    (update_status ord st notes now).customer_phone = ord.customer_phone ∧
    (update_status ord st notes now).shipping_address = ord.shipping_address ∧
    (update_status ord st notes now).shipping_city = ord.shipping_city ∧
    (update_status ord st notes now).shipping_country = ord.shipping_country ∧
    (update_status ord st notes now).billing_address = ord.billing_address ∧
    (update_status ord st notes now).billing_city = ord.billing_city ∧
    (update_status ord st notes now).billing_country = ord.billing_country ∧
    (update_status ord st notes now).payment_method = ord.payment_method ∧
    (update_status ord st notes now).created_at = ord.created_at := by
  unfold update_status
  by_cases hp : st = "paid" <;>
    cases notes with
    | none => simp [hp]
    | some n => by_cases hn : n = "" <;> simp [hp, hn]

/-- C1 fails on the code: `validate_items` checks each line against the same
stock snapshot, so a cart with two lines of 3 units for a product stocked at 5
passes validation, and `create_with_owner` then decrements twice and commits a
stock of −1. -/
theorem c1_validated_cart_commits_negative_stock :
    validate_items c1_db c1_cart.items = none ∧
    stockOf (create_with_owner c1_db c1_cart none "MALABRO-AAA111" 0).1 1 =
      some (-1) := by
  constructor
  · norm_num [validate_items, findProduct, pyAbs, priceTol, c1_db, c1_cart, c1_line]
  · rfl

/-- C2 fails on the code: `validate_items` never checks `subtotal`, and
`create_with_owner` sums the client-supplied `subtotal` fields into
`total_amount` and persists them.  Here the committed total is 0 and the
persisted item's `subtotal` is 0, although `product_price × quantity`
is 20. -/
theorem c2_client_subtotal_is_trusted :
    validate_items c2_db c2_cart.items = none ∧
    (create_with_owner c2_db c2_cart none "MALABRO-BBB222" 0).2.total_amount = 0 ∧
    ((create_with_owner c2_db c2_cart none "MALABRO-BBB222" 0).1.order_items.map
      OrderItemRow.subtotal) = [0] ∧
    c2_line.product_price * (c2_line.quantity : ℚ) = 20 := by
  refine ⟨?_, ?_, ?_, ?_⟩
  · norm_num [validate_items, findProduct, pyAbs, priceTol, c2_db, c2_cart, c2_line]
  · norm_num [create_with_owner, mkOrderRow, c2_cart, c2_line]
  · norm_num [create_with_owner, mkOrderRow, procItem, itemRowFor, setStock,
      findProduct, c2_db, c2_cart, c2_line]
  · norm_num [c2_line]

/-- C5 fails on the code: the admin `update_product` endpoint overwrites
`stock_quantity` directly and appends no `InventoryLedger` row, so after the
update the ledger still sums to 5 (and is unchanged) while the stock is 12 —
the replay no longer reproduces the current stock. -/
theorem c5_admin_stock_update_bypasses_ledger :
    ledgerSum c5_db 1 = 5 ∧ stockOf c5_db 1 = some 5 ∧
    (update_product c5_db 1 c5_upd).map (fun db1 =>
      (ledgerSum db1 1, stockOf db1 1, db1.ledger)) =
      some (5, some 12, c5_db.ledger) := by
  refine ⟨rfl, rfl, rfl⟩

/-- C8 fails on the code: neither the `OrderItemCreate` schema nor
`validate_items` requires `quantity > 0`.  A line with quantity −2 passes
validation (stock 5 < −2 is false), is persisted as an OrderItem row with
quantity −2, and the decrement `5 − (−2)` even raises the stock to 7. -/
theorem c8_nonpositive_quantity_is_accepted_and_persisted :
    validate_items c8_db c8_cart.items = none ∧
    ((create_with_owner c8_db c8_cart none "MALABRO-CCC333" 0).1.order_items.map
      OrderItemRow.quantity) = [-2] ∧
    stockOf (create_with_owner c8_db c8_cart none "MALABRO-CCC333" 0).1 1 =
      some 7 := by
  refine ⟨?_, rfl, rfl⟩
  norm_num [validate_items, findProduct, pyAbs, priceTol, c8_db, c8_cart, c8_line]

/-- C10: a cart line whose product id is absent from the catalog raises no
error in `create_with_owner`: the per-item loop leaves products and ledger
untouched for that line and still inserts the OrderItem row (with the
client-supplied fields, `subtotal` included), and the committed order's
`total_amount` includes every line's client-supplied subtotal. -/
theorem c10_missing_product_line_skipped_but_billed (db : DB) (oid : Nat)
    (uid : Option Nat) (ref : String) (item : OrderItemCreate)
    (objIn : OrderCreate) (now : Nat)
    (h : findProduct db item.product_id = none) :
    procItem oid uid ref db item =
      { db with order_items := db.order_items ++ [itemRowFor oid item] } ∧
    (create_with_owner db objIn uid ref now).2.total_amount =
      (objIn.items.map OrderItemCreate.subtotal).sum := by
  constructor
  · simp [procItem, h]
  · rfl

theorem c10_witness :
    procItem 1 none "MALABRO-DDD444" c10w_db c10w_line =
      { c10w_db with
        order_items := c10w_db.order_items ++ [itemRowFor 1 c10w_line] } ∧
    (create_with_owner c10w_db c10w_cart none "MALABRO-DDD444" 0).2.total_amount =
      (c10w_cart.items.map OrderItemCreate.subtotal).sum :=
  c10_missing_product_line_skipped_but_billed c10w_db 1 none "MALABRO-DDD444"
    c10w_line c10w_cart 0 rfl

theorem procItem_ledger (oid : Nat) (uid : Option Nat) (ref : String)
    (db : DB) (item : OrderItemCreate) :
    (procItem oid uid ref db item).ledger =
      db.ledger ++
        (match findProduct db item.product_id with
          | some p => [ledgerRowFor p item oid uid ref]
          | none => []) := by
  unfold procItem
  cases h : findProduct db item.product_id with
  | some p => simp [setStock]
  | none => simp

theorem procItem_products (oid : Nat) (uid : Option Nat) (ref : String)
    (db : DB) (item : OrderItemCreate) :
    (procItem oid uid ref db item).products =
      (match findProduct db item.product_id with
        | some p => (setStock db p.id (p.stock_quantity - item.quantity)).products
        | none => db.products) := by
  unfold procItem
  cases h : findProduct db item.product_id with
  | some p => simp
  | none => simp

theorem find?_setStock_isSome (l : List Product) (x : Nat) (v : Int) (pid : Nat) :
    ((l.map (fun q => if q.id == x then { q with stock_quantity := v } else q)).find?
        (fun p => p.id == pid)).isSome =
      (l.find? (fun p => p.id == pid)).isSome := by
  induction l with
  | nil => rfl
  | cons q t ih =>
    simp only [List.map_cons, List.find?_cons]
    have hid : (if q.id == x then { q with stock_quantity := v } else q).id = q.id := by
      split <;> rfl
    rw [hid]
    cases hqp : q.id == pid
    · simpa using ih
    · simp

theorem findProduct_setStock_isSome (db : DB) (x : Nat) (v : Int) (pid : Nat) :
    (findProduct (setStock db x v) pid).isSome = (findProduct db pid).isSome := by
  unfold findProduct setStock
  exact find?_setStock_isSome db.products x v pid

theorem findProduct_procItem_isSome (oid : Nat) (uid : Option Nat) (ref : String)
    (db : DB) (item : OrderItemCreate) (pid : Nat) :
    (findProduct (procItem oid uid ref db item) pid).isSome =
      (findProduct db pid).isSome := by
  unfold findProduct
  rw [procItem_products]
  cases h : Malabro.findProduct db item.product_id with
  | some p => exact find?_setStock_isSome db.products p.id _ pid
  | none => rfl

theorem procItem_products_congr (oid : Nat) (uid : Option Nat) (ref : String)
    (db db' : DB) (item : OrderItemCreate) (hpe : db.products = db'.products) :
    (procItem oid uid ref db item).products =
      (procItem oid uid ref db' item).products := by
  have hf : findProduct db item.product_id = findProduct db' item.product_id := by
    unfold findProduct; rw [hpe]
  rw [procItem_products, procItem_products, hf]
  cases h : findProduct db' item.product_id with
  | some p => simp [setStock, hpe]
  | none => exact hpe

theorem saleRows_products_eq (oid : Nat) (uid : Option Nat) (ref : String) :
    ∀ (items : List OrderItemCreate) (db db' : DB),
      db.products = db'.products →
      saleRows oid uid ref db items = saleRows oid uid ref db' items := by
  intro items
  induction items with
  | nil => intro db db' _; rfl
  | cons item rest ih =>
    intro db db' hpe
    have hf : findProduct db item.product_id = findProduct db' item.product_id := by
      unfold findProduct; rw [hpe]
    unfold saleRows
    rw [hf]
    cases h : findProduct db' item.product_id with
    | some p =>
      have := ih (procItem oid uid ref db item) (procItem oid uid ref db' item)
        (procItem_products_congr oid uid ref db db' item hpe)
      rw [this]
    | none =>
      exact ih _ _ (procItem_products_congr oid uid ref db db' item hpe)

theorem saleRows_cons (oid : Nat) (uid : Option Nat) (ref : String) (db : DB)
    (item : OrderItemCreate) (rest : List OrderItemCreate) :
    saleRows oid uid ref db (item :: rest) =
      match findProduct db item.product_id with
      | some p =>
        ledgerRowFor p item oid uid ref ::
          saleRows oid uid ref (procItem oid uid ref db item) rest
      | none => saleRows oid uid ref (procItem oid uid ref db item) rest := rfl

theorem foldl_procItem_ledger (oid : Nat) (uid : Option Nat) (ref : String) :
    ∀ (items : List OrderItemCreate) (db : DB),
      (items.foldl (procItem oid uid ref) db).ledger =
        db.ledger ++ saleRows oid uid ref db items := by
  intro items
  induction items with
  | nil => intro db; simp [saleRows]
  | cons item rest ih =>
    intro db
    rw [List.foldl_cons, ih, procItem_ledger, saleRows_cons]
    cases h : findProduct db item.product_id <;> simp [h]

theorem saleRows_length (oid : Nat) (uid : Option Nat) (ref : String) :
    ∀ (items : List OrderItemCreate) (db : DB),
      (saleRows oid uid ref db items).length =
        items.countP (fun item => (findProduct db item.product_id).isSome) := by
  intro items
  induction items with
  | nil => intro db; rfl
  | cons item rest ih =>
    intro db
    unfold saleRows
    rw [List.countP_cons]
    have hcong :
        rest.countP (fun it =>
          (findProduct (procItem oid uid ref db item) it.product_id).isSome) =
        rest.countP (fun it => (findProduct db it.product_id).isSome) :=
      List.countP_congr (fun it _ => by
        rw [findProduct_procItem_isSome oid uid ref db item it.product_id])
    cases h : findProduct db item.product_id with
    | some p => simp [ih, hcong, h]
    | none => simp [ih, hcong, h]

theorem saleRows_fields (oid : Nat) (uid : Option Nat) (ref : String) :
    ∀ (items : List OrderItemCreate) (db : DB) (r : LedgerRow),
      r ∈ saleRows oid uid ref db items →
        r.change_type = "Sale" ∧ r.user_id = uid ∧ r.order_id = some oid ∧
        ∃ item ∈ items, r.product_id = item.product_id ∧
          r.quantity_change = -item.quantity := by
  intro items
  induction items with
  | nil => intro db r hr; cases hr
  | cons item rest ih =>
    intro db r hr
    unfold saleRows at hr
    cases h : findProduct db item.product_id with
    | some p =>
      rw [h] at hr
      rcases List.mem_cons.mp hr with hEq | hMem
      · subst hEq
        have hpid : p.id = item.product_id := by
          have hfind : List.find? (fun q => q.id == item.product_id) db.products
              = some p := by simpa [findProduct] using h
          simpa using List.find?_some hfind
        exact ⟨rfl, rfl, rfl, item, List.mem_cons_self item rest, hpid, rfl⟩
      · obtain ⟨h1, h2, h3, it, hit, h4⟩ := ih _ r hMem
        exact ⟨h1, h2, h3, it, List.mem_cons_of_mem item hit, h4⟩
    | none =>
      rw [h] at hr
      obtain ⟨h1, h2, h3, it, hit, h4⟩ := ih _ r hr
      exact ⟨h1, h2, h3, it, List.mem_cons_of_mem item hit, h4⟩

/-- C6 counterexample: `create_with_owner` commits an order (id 1, one
OrderItem row) for a cart line whose product id is absent, and the committed
state holds no InventoryLedger row at all for that order and line — not
exactly one. -/
theorem c6_counterexample_line_without_ledger_row :
    (create_with_owner c6x_db c6x_cart (some 2) "MALABRO-EEE555" 0).1.orders.map
      Order.id = [1] ∧
    (create_with_owner c6x_db c6x_cart (some 2) "MALABRO-EEE555" 0).1.order_items.length
      = 1 ∧
    (create_with_owner c6x_db c6x_cart (some 2) "MALABRO-EEE555" 0).1.ledger = [] :=
  ⟨rfl, rfl, rfl⟩

/-- C6 (amended): for every committed order, the rows `create_with_owner`
appends to the ledger are exactly `saleRows` — one row per cart line **whose
product id exists in the catalog when the line is processed** — and every such
row has `change_type = "Sale"`, the acting user (None for guest checkout), the
new order's id, the line's product id and `quantity_change = −quantity`, with
`new_quantity` the product's post-decrement stock by construction of
`saleRows`/`ledgerRowFor`. -/
theorem c6_one_sale_row_per_existing_product_line (db : DB) (objIn : OrderCreate)
    (uid : Option Nat) (ref : String) (now : Nat) :
    (create_with_owner db objIn uid ref now).1.ledger =
      db.ledger ++ saleRows (create_with_owner db objIn uid ref now).2.id uid ref
        db objIn.items ∧
    (saleRows (create_with_owner db objIn uid ref now).2.id uid ref db
        objIn.items).length =
      objIn.items.countP (fun item => (findProduct db item.product_id).isSome) ∧
    ∀ r ∈ saleRows (create_with_owner db objIn uid ref now).2.id uid ref db
        objIn.items,
      r.change_type = "Sale" ∧ r.user_id = uid ∧
      r.order_id = some (create_with_owner db objIn uid ref now).2.id ∧
      ∃ item ∈ objIn.items, r.product_id = item.product_id ∧
        r.quantity_change = -item.quantity := by
  refine ⟨?_, saleRows_length _ uid ref objIn.items db,
    fun r hr => saleRows_fields _ uid ref objIn.items db r hr⟩
  calc (create_with_owner db objIn uid ref now).1.ledger
      = db.ledger ++ saleRows db.next_order_id uid ref
          { db with orders := db.orders ++ [mkOrderRow db objIn uid ref now],
                    next_order_id := db.next_order_id + 1 } objIn.items := by
        rw [show (create_with_owner db objIn uid ref now).1 =
          objIn.items.foldl (procItem db.next_order_id uid ref)
            { db with orders := db.orders ++ [mkOrderRow db objIn uid ref now],
                      next_order_id := db.next_order_id + 1 } from rfl,
          foldl_procItem_ledger]
    _ = db.ledger ++ saleRows (create_with_owner db objIn uid ref now).2.id uid ref
          db objIn.items := by
        rw [saleRows_products_eq db.next_order_id uid ref objIn.items
          { db with orders := db.orders ++ [mkOrderRow db objIn uid ref now],
                    next_order_id := db.next_order_id + 1 } db rfl]
        rfl

theorem c6_witness :
    (create_with_owner c6w_db c6w_cart (some 3) "MALABRO-FFF666" 0).1.ledger =
      c6w_db.ledger ++ saleRows
        (create_with_owner c6w_db c6w_cart (some 3) "MALABRO-FFF666" 0).2.id
        (some 3) "MALABRO-FFF666" c6w_db c6w_cart.items :=
  (c6_one_sale_row_per_existing_product_line c6w_db c6w_cart (some 3)
    "MALABRO-FFF666" 0).1

theorem generate_never_returns_on_c7x (a fuel : Nat) :
    generate_order_reference c7x_db c7_pick a fuel = none := by
  induction fuel generalizing a with
  | zero => rfl
  | succ n ih =>
    rw [generate_order_reference,
      if_pos (show usedRef c7x_db ("MALABRO-" ++ randomPart (c7_pick a)) = true
        from rfl)]
    exact ih (a + 1)

/-- C7 counterexample: the source's `while True:` loop has no retry bound and
no fatal-conflict return.  On a store where every generated candidate
collides, no number of loop iterations makes `_generate_order_reference`
return anything — it retries forever instead of surfacing a fatal conflict
after boundedly many attempts. -/
theorem c7_counterexample_unbounded_retry :
    ¬ ∃ fuel r, generate_order_reference c7x_db c7_pick 0 fuel = some r := by
  rintro ⟨fuel, r, h⟩
  rw [generate_never_returns_on_c7x 0 fuel] at h
  exact Option.noConfusion h

/-- C7 (amended): whenever `_generate_order_reference` returns, its result is
`"MALABRO-"` followed by 6 characters drawn from the uppercase-alphanumeric
alphabet and equals no existing order's reference; but the loop is unbounded —
while candidates keep colliding it simply runs again (see the
counterexample). -/
theorem c7_success_reference_is_fresh_and_wellformed (db : DB)
    (pick : Nat → Fin 6 → Fin 36) (a fuel : Nat) (r : String)
    (h : generate_order_reference db pick a fuel = some r) :
    usedRef db r = false ∧
    ∃ part : String, r = "MALABRO-" ++ part ∧ part.length = 6 ∧
      ∀ ch ∈ part.data, ch ∈ refChars := by
  induction fuel generalizing a with
  | zero => exact absurd h (by simp [generate_order_reference])
  | succ n ih =>
    rw [generate_order_reference] at h
    by_cases hu : usedRef db ("MALABRO-" ++ randomPart (pick a)) = true
    · rw [if_pos hu] at h
      exact ih (a + 1) h
    · rw [if_neg hu] at h
      obtain rfl := Option.some.inj h
      refine ⟨by simpa using hu, randomPart (pick a), rfl, ?_, ?_⟩
      · show ((List.finRange 6).map (fun i =>
          refChars.get ((pick a i).cast refChars_length.symm))).length = 6
        simp
      · intro ch hch
        have hch2 : ch ∈ (List.finRange 6).map (fun i =>
            refChars.get ((pick a i).cast refChars_length.symm)) := hch
        obtain ⟨i, _, rfl⟩ := List.mem_map.mp hch2
        exact List.get_mem refChars _ _

theorem c7_witness :
    usedRef c7w_db "MALABRO-AAAAAA" = false ∧
    ∃ part : String, "MALABRO-AAAAAA" = "MALABRO-" ++ part ∧ part.length = 6 ∧
      ∀ ch ∈ part.data, ch ∈ refChars :=
  c7_success_reference_is_fresh_and_wellformed c7w_db c7_pick 0 1
    "MALABRO-AAAAAA" rfl

end Malabro
